import Mathlib

set_option maxRecDepth 100000

/-!
Verification of `src/server/supplements/recorder/recorderApp.ts` (RecorderApp).

The TypeScript class is effectful: it talks to a browser page through
evaluation calls, request interception, an exposed binding, and an event
emitter.  We embed it shallowly: every external effect becomes an explicit
parameter (an environment record of outcomes) or an explicit piece of state,
and each method of `RecorderApp` becomes a pure Lean function over those.
-/

/-! ## Data model (from `recorderTypes` as used by this file) -/

/-- Mode argument of `setMode`: the union type `'none' | 'recording' | 'inspecting'`. -/
inductive Mode
  | none
  | recording
  | inspecting
deriving DecidableEq, Repr

/-- A recorder source.  The external `Source` type carries more fields, but
`recorderApp.ts` only ever reads `sources[0].text` (and passes the rest
opaquely to the page), so we keep the file name and the text. -/
structure Source where
  file : String
  text : String
deriving DecidableEq, Repr

/-- Opaque call-log entry: `recorderApp.ts` relays call logs to the page
without inspecting them. -/
structure CallLog where
  raw : String
deriving DecidableEq, Repr

/-- Payload of the `dispatch` binding (`EventData`): relayed unchanged, so we
model it as an opaque structured value. -/
structure EventData where
  event : String
  params : String
deriving DecidableEq, Repr

/-! ## Page evaluation environment

Each push operation runs `this._page.mainFrame().eval(fn, arg)`.  The outcome
of such an evaluation depends on the page (it rejects when the window is
closed, not yet ready, etc.), so we quantify over an arbitrary outcome
function: `Except.error e` is a rejected evaluation, `Except.ok ()` a
successful one. -/

structure PageEnv where
  evalSetMode : Mode → Except String Unit
  evalSetFile : String → Except String Unit
  evalSetPaused : Bool → Except String Unit
  evalSetSources : List Source → Except String Unit
  evalSetSelector : String → Option Bool → Except String Unit
  evalUpdateCallLogs : List CallLog → Except String Unit

/-- The `.catch(() => \x7b\x7d)` combinator applied to every push evaluation:
a rejected promise is converted into a successful resolution. -/
def catchIgnore (r : Except String Unit) : Except String Unit :=
  match r with
  | .ok u => .ok u
  | .error _ => .ok ()

/-! ## The six State Push operations -/

/-- `RecorderApp.setMode`: evaluate `window.playwrightSetMode(mode)` in the
page, swallowing any error. -/
def setMode (env : PageEnv) (mode : Mode) : Except String Unit :=
  catchIgnore (env.evalSetMode mode)

/-- `RecorderApp.setFile`: evaluate `window.playwrightSetFile(file)`,
swallowing any error. -/
def setFile (env : PageEnv) (file : String) : Except String Unit :=
  catchIgnore (env.evalSetFile file)

/-- `RecorderApp.setPaused`: evaluate `window.playwrightSetPaused(paused)`,
swallowing any error. -/
def setPaused (env : PageEnv) (paused : Bool) : Except String Unit :=
  catchIgnore (env.evalSetPaused paused)

/-- The fixed delimiter line (with surrounding newlines) written around the
first source's text under `PWTEST_CLI_EXIT`. -/
def cliDelimiter : String := "\n-------------8<-------------\n"

/-- JavaScript truthiness of an environment variable: `process.env.X` is
truthy exactly when the variable is set to a non-empty string. -/
def truthy : Option String → Bool
  | Option.none => false
  | Option.some s => s ≠ ""

/-- `RecorderApp.setSources`: evaluate `window.playwrightSetSources(sources)`
swallowing any error; then, if `process.env.PWTEST_CLI_EXIT && sources.length`,
write the first source's text to stdout between two delimiter lines.
The second component is the list of `process.stdout.write` calls made. -/
def setSources (env : PageEnv) (pwtestCliExit : Option String)
    (sources : List Source) : Except String Unit × List String :=
  let r := catchIgnore (env.evalSetSources sources)
  let out :=
    if truthy pwtestCliExit && sources.length != 0 then
      match sources with
      | s0 :: _ => [cliDelimiter, s0.text, cliDelimiter]
      | [] => []
    else []
  (r, out)

/-- `RecorderApp.setSelector`: evaluate `window.playwrightSetSelector(selector,
focus)`, swallowing any error. -/
def setSelector (env : PageEnv) (selector : String) (focus : Option Bool) :
    Except String Unit :=
  catchIgnore (env.evalSetSelector selector focus)

/-- `RecorderApp.updateCallLogs`: evaluate `window.playwrightUpdateLogs(callLogs)`,
swallowing any error. -/
def updateCallLogs (env : PageEnv) (callLogs : List CallLog) :
    Except String Unit :=
  catchIgnore (env.evalUpdateCallLogs callLogs)

/-! ## Theorems: claims C1 and C6 -/

/-- Claim C1: every one of the six State Push operations resolves successfully
for every argument value and every page state (every possible evaluation
outcome, including the rejections produced by a closed or not-yet-ready
window): the `.catch` swallows any in-page evaluation error. -/
theorem push_operations_never_reject (env : PageEnv) (mode : Mode)
    (file : String) (paused : Bool) (cliExit : Option String)
    (sources : List Source) (selector : String) (focus : Option Bool)
    (logs : List CallLog) :
    setMode env mode = Except.ok () ∧
    setFile env file = Except.ok () ∧
    setPaused env paused = Except.ok () ∧
    (setSources env cliExit sources).1 = Except.ok () ∧
    setSelector env selector focus = Except.ok () ∧
    updateCallLogs env logs = Except.ok () := by
  refine ⟨?_, ?_, ?_, ?_, ?_, ?_⟩
  · cases h : env.evalSetMode mode <;> simp [setMode, catchIgnore, h]
  · cases h : env.evalSetFile file <;> simp [setFile, catchIgnore, h]
  · cases h : env.evalSetPaused paused <;> simp [setPaused, catchIgnore, h]
  · cases h : env.evalSetSources sources <;> simp [setSources, catchIgnore, h]
  · cases h : env.evalSetSelector selector focus <;>
      simp [setSelector, catchIgnore, h]
  · cases h : env.evalUpdateCallLogs logs <;>
      simp [updateCallLogs, catchIgnore, h]

/-- Claim C6: with `PWTEST_CLI_EXIT` truthy and a non-empty source list,
`setSources` writes the first source's text bracketed by the two fixed
delimiter lines, for every evaluation outcome (push success or failure);
with the switch falsy, or with an empty list, it writes nothing. -/
theorem setSources_cli_output (env : PageEnv) (sw : Option String) :
    (∀ s0 rest, truthy sw = true →
      (setSources env sw (s0 :: rest)).2 = [cliDelimiter, s0.text, cliDelimiter]) ∧
    (∀ sources, truthy sw = false → (setSources env sw sources).2 = []) ∧
    (setSources env sw []).2 = [] := by
  refine ⟨?_, ?_, ?_⟩
  · intro s0 rest h
    simp [setSources, h]
  · intro sources h
    simp [setSources, h]
  · simp [setSources]

/-- Witness for C6 at concrete inputs: switch set to "1", one source. -/
theorem setSources_cli_output_witness :
    (setSources
        ⟨fun _ => Except.ok (), fun _ => Except.ok (), fun _ => Except.ok (),
         fun _ => Except.error "window closed", fun _ _ => Except.ok (),
         fun _ => Except.ok ()⟩
        (Option.some "1") [⟨"a.spec.ts", "await page.click()"⟩]).2 =
      [cliDelimiter, "await page.click()", cliDelimiter] ∧
    (setSources
        ⟨fun _ => Except.ok (), fun _ => Except.ok (), fun _ => Except.ok (),
         fun _ => Except.error "window closed", fun _ _ => Except.ok (),
         fun _ => Except.ok ()⟩
        Option.none [⟨"a.spec.ts", "await page.click()"⟩]).2 = [] := by
  constructor
  · exact (setSources_cli_output _ (Option.some "1")).1
      ⟨"a.spec.ts", "await page.click()"⟩ [] (by decide)
  · exact (setSources_cli_output _ Option.none).2.1
      [⟨"a.spec.ts", "await page.click()"⟩] (by decide)

/-! ## Asset Interceptor (the `_setServerRequestInterceptor` handler)

The handler inspects `route.request().url()`.  Virtual addresses start with
`https://playwright/`; the rest of the URL is resolved with `require.resolve`
against `../../../web/recorder/`, the file is read, and the route is
fulfilled.  Module resolution and the filesystem are the environment. -/

/-- The reserved virtual origin checked by the interceptor. -/
def virtualOrigin : String := "https://playwright/"

/-- The bundle root the stripped path is resolved against. -/
def assetRoot : String := "../../../web/recorder/"

/-- The virtual entry address navigated to at the end of `_init`. -/
def recorderUrl : String := "https://playwright/index.html"

/-- `String.prototype.startsWith`, modelled over character lists so that
concrete instances evaluate inside the kernel. -/
def strStartsWith (s p : String) : Bool :=
  decide (s.toList.take p.toList.length = p.toList)

/-- `String.prototype.substring(n)` (drop the first `n` characters), modelled
over character lists. -/
def strDrop (s : String) (n : Nat) : String :=
  String.mk (s.toList.drop n)

/-- Length in characters, the `n` fed to `substring` by the interceptor. -/
def strLen (s : String) : Nat := s.toList.length

/-- The fixed extension-to-MIME table at the bottom of `recorderApp.ts`;
`Option.none` is JavaScript `undefined` for a missing key. -/
def extensionToMime (ext : String) : Option String :=
  List.lookup ext
    [(".css", "text/css"),
     (".html", "text/html"),
     (".jpeg", "image/jpeg"),
     (".js", "application/javascript"),
     (".png", "image/png"),
     (".ttf", "font/ttf"),
     (".svg", "image/svg+xml"),
     (".webp", "image/webp"),
     (".woff", "font/woff"),
     (".woff2", "font/woff2")]

/-- Drop trailing `/` characters (Node's `path.extname` ignores them). -/
def dropTrailingSlashes (cs : List Char) : List Char :=
  ((cs.reverse.dropWhile (fun c => c = '/'))).reverse

/-- The characters after the last `/`. -/
def afterLastSlash (cs : List Char) : List Char :=
  ((cs.reverse.takeWhile (fun c => c ≠ '/'))).reverse

/-- Index of the last `.` in a character list, if any. -/
def lastDotIdx (cs : List Char) : Option Nat :=
  match cs.reverse.findIdx? (fun c => c = '.') with
  | Option.none => Option.none
  | Option.some j => Option.some (cs.length - 1 - j)

/-- Node's `path.extname`: the extension of the basename, from its last `.`
inclusive; empty when the basename has no dot, starts with its only dot
(hidden files), or is `..`. -/
def extname (p : String) : String :=
  let name := afterLastSlash (dropTrailingSlashes p.toList)
  if name = ['.', '.'] then ""
  else
    match lastDotIdx name with
    | Option.none => ""
    | Option.some 0 => ""
    | Option.some i => String.mk (name.drop i)

/-- The base64 alphabet, as used by `Buffer.prototype.toString('base64')`. -/
def base64Chars : List Char :=
  "ABCDEFGHIJKLMNOPQRSTUVWXYZabcdefghijklmnopqrstuvwxyz0123456789+/".toList

/-- The base64 digit for a 6-bit value. -/
def b64Char (n : Nat) : Char := base64Chars.getD n 'A'

/-- Standard padded base64 of a byte sequence (`buffer.toString('base64')`). -/
def base64Encode : List Nat → String
  | [] => ""
  | [a] =>
      String.mk [b64Char (a / 4 % 64), b64Char (a % 4 * 16)] ++ "=="
  | [a, b] =>
      String.mk [b64Char (a / 4 % 64), b64Char (a % 4 * 16 + b / 16),
        b64Char (b % 16 * 4)] ++ "="
  | a :: b :: c :: rest =>
      String.mk [b64Char (a / 4 % 64), b64Char (a % 4 * 16 + b / 16),
        b64Char (b % 16 * 4 + c / 64), b64Char (c % 64)] ++ base64Encode rest

/-- Environment of the interceptor: `require.resolve` over the bundle (fails
with an exception on unresolvable specifiers, hence `Option`) and
`fs.promises.readFile` (bytes of a readable file). -/
structure AssetEnv where
  resolve : String → Option String
  readFile : String → Option (List Nat)

/-- The action taken on an intercepted route: `route.fulfill(...)` with
status, headers (value `Option.none` = `undefined`), body and the base64
flag, or `route.continue()`. -/
inductive RouteAction
  | fulfill (status : Nat) (headers : List (String × Option String))
      (body : String) (isBase64 : Bool)
  | cont
deriving DecidableEq, Repr

/-- The request-interception handler installed by `_init`: virtual URLs are
served from the bundle (an unresolvable or unreadable path makes the handler
throw), everything else is continued unmodified. -/
def interceptRequest (env : AssetEnv) (url : String) :
    Except String RouteAction :=
  if strStartsWith url virtualOrigin then
    let uri := strDrop url (strLen virtualOrigin)
    match env.resolve (assetRoot ++ uri) with
    | Option.none => Except.error ("Cannot find module " ++ assetRoot ++ uri)
    | Option.some file =>
      match env.readFile file with
      | Option.none => Except.error ("ENOENT " ++ file)
      | Option.some buffer =>
        Except.ok (RouteAction.fulfill 200
          [("Content-Type", extensionToMime (extname file))]
          (base64Encode buffer) true)
  else
    Except.ok RouteAction.cont

/-- Claim C2: a virtual request whose stripped path resolves to a readable
bundle file is fulfilled with status 200, the Content-Type taken from the
extension-to-MIME table at the resolved file's extension, and exactly the
file's bytes base64-encoded; a non-virtual request is continued unmodified. -/
theorem interceptRequest_contract (env : AssetEnv) (url : String) :
    (∀ file bytes, strStartsWith url virtualOrigin = true →
      env.resolve (assetRoot ++ strDrop url (strLen virtualOrigin)) =
        Option.some file →
      env.readFile file = Option.some bytes →
      interceptRequest env url =
        Except.ok (RouteAction.fulfill 200
          [("Content-Type", extensionToMime (extname file))]
          (base64Encode bytes) true)) ∧
    (strStartsWith url virtualOrigin = false →
      interceptRequest env url = Except.ok RouteAction.cont) := by
  constructor
  · intro file bytes h1 h2 h3
    simp [interceptRequest, h1, h2, h3]
  · intro h1
    simp [interceptRequest, h1]

/-- A concrete one-file bundle for the C2 witness. -/
def sampleAssetEnv : AssetEnv where
  resolve s :=
    if s = "../../../web/recorder/index.html" then
      Option.some "/pkg/lib/web/recorder/index.html"
    else Option.none
  readFile f :=
    if f = "/pkg/lib/web/recorder/index.html" then Option.some [60, 104, 62]
    else Option.none

/-- Witness for C2: the entry page is served with `text/html` and the base64
of its bytes; an unrelated URL is continued. -/
theorem interceptRequest_contract_witness :
    interceptRequest sampleAssetEnv "https://playwright/index.html" =
      Except.ok (RouteAction.fulfill 200
        [("Content-Type", Option.some "text/html")] "PGg+" true) ∧
    interceptRequest sampleAssetEnv "http://example.com/" =
      Except.ok RouteAction.cont := by
  constructor
  · have h := (interceptRequest_contract sampleAssetEnv
      "https://playwright/index.html").1 "/pkg/lib/web/recorder/index.html"
      [60, 104, 62] (by decide) (by decide) (by decide)
    rw [h]
    rfl
  · exact (interceptRequest_contract sampleAssetEnv "http://example.com/").2
      (by decide)

/-! ## Claim C9: MIME fallback for unlisted extensions

The interceptor writes `extensionToMime[path.extname(file)]` directly into
the header value; there is no fallback, so an extension missing from the
table yields an `undefined` (`Option.none`) Content-Type. -/

/-- A bundle with one file whose extension `.bin` is not in the MIME table. -/
def binAssetEnv : AssetEnv where
  resolve s :=
    if s = "../../../web/recorder/data.bin" then
      Option.some "/pkg/lib/web/recorder/data.bin"
    else Option.none
  readFile f :=
    if f = "/pkg/lib/web/recorder/data.bin" then Option.some [0]
    else Option.none

/-- Counterexample to C9: requesting `data.bin` (extension `.bin`, not a key
of the table) fulfills with Content-Type `Option.none` (`undefined`), not
with an octet-stream fallback. -/
theorem mime_no_fallback_counterexample :
    interceptRequest binAssetEnv "https://playwright/data.bin" =
      Except.ok (RouteAction.fulfill 200 [("Content-Type", Option.none)]
        "AA==" true) ∧
    extensionToMime (extname "/pkg/lib/web/recorder/data.bin") ≠
      Option.some "application/octet-stream" := by
  constructor
  · rfl
  · decide

/-- Claim C9 amended: for every virtual asset request whose resolved file's
extension is not a key of the extension-to-MIME table, the fulfilled
response's Content-Type header value is left undefined (`Option.none`);
no octet-stream fallback is applied. -/
theorem mime_unlisted_extension_undefined (env : AssetEnv) (url file : String)
    (bytes : List Nat) (h1 : strStartsWith url virtualOrigin = true)
    (h2 : env.resolve (assetRoot ++ strDrop url (strLen virtualOrigin)) =
      Option.some file)
    (h3 : env.readFile file = Option.some bytes)
    (h4 : extensionToMime (extname file) = Option.none) :
    interceptRequest env url =
      Except.ok (RouteAction.fulfill 200 [("Content-Type", Option.none)]
        (base64Encode bytes) true) := by
  simp [interceptRequest, h1, h2, h3, h4]

/-- Witness for the amended C9 at the concrete `.bin` bundle. -/
theorem mime_unlisted_extension_undefined_witness :
    interceptRequest binAssetEnv "https://playwright/data.bin" =
      Except.ok (RouteAction.fulfill 200 [("Content-Type", Option.none)]
        (base64Encode [0]) true) :=
  mime_unlisted_extension_undefined binAssetEnv "https://playwright/data.bin"
    "/pkg/lib/web/recorder/data.bin" [0] (by decide) (by decide) (by decide)
    (by decide)

/-! ## Binding Channel (claim C3)

`_init` exposes one binding:
`this._page.exposeBinding('dispatch', false, (_, data) => this.emit('event', data))`.
Each invocation of the binding from the page emits exactly one `event`
notification carrying the payload. -/

/-- The handler of the `dispatch` binding: the notification(s) it emits for
one invocation with payload `data`. -/
def dispatchHandler (data : EventData) : List (String × EventData) :=
  [("event", data)]

/-- The notification log produced by a sequence of `dispatch` invocations,
in invocation order. -/
def runDispatches (ds : List EventData) : List (String × EventData) :=
  ds.foldl (fun log d => log ++ dispatchHandler d) []

/-- Folding emission over a list appends one notification per payload. -/
theorem runDispatches_general (ds : List EventData)
    (acc : List (String × EventData)) :
    ds.foldl (fun log d => log ++ dispatchHandler d) acc =
      acc ++ ds.map (fun d => ("event", d)) := by
  induction ds generalizing acc with
  | nil => simp
  | cons d rest ih =>
    rw [List.foldl_cons, ih]
    simp [dispatchHandler]

/-- Claim C3: N invocations of the `dispatch` binding with payloads
`d1..dN` produce exactly N `event` notifications, one per invocation, in
invocation order, each carrying its payload unchanged. -/
theorem dispatch_relays_every_payload_in_order (ds : List EventData) :
    runDispatches ds = ds.map (fun d => ("event", d)) ∧
    (runDispatches ds).length = ds.length ∧
    ∀ i : Nat, (runDispatches ds)[i]? =
      (ds[i]?).map (fun d => ("event", d)) := by
  have h : runDispatches ds = ds.map (fun d => ("event", d)) := by
    rw [runDispatches, runDispatches_general]; simp
  refine ⟨h, ?_, ?_⟩
  · rw [h]; simp
  · intro i
    rw [h, List.getElem?_map]

/-! ## Event emitter (claim C10)

`RecorderApp extends EventEmitter` and its constructor calls
`this.setMaxListeners(0)`.  We model the Node.js `EventEmitter` contract
that `recorderApp.ts` relies on: listeners are always appended and retained;
`maxListeners` is only a warning threshold (`0` means unlimited), crossing
it sets a once-warned flag but never drops a listener. -/

structure Emitter where
  maxListeners : Nat
  listeners : List (String × Nat)
  warned : Bool
deriving DecidableEq, Repr

/-- A fresh emitter: Node's `defaultMaxListeners` is 10. -/
def Emitter.new : Emitter := ⟨10, [], false⟩

/-- `emitter.setMaxListeners(n)`. -/
def Emitter.setMax (e : Emitter) (n : Nat) : Emitter :=
  { e with maxListeners := n }

/-- Number of listeners registered for one event name. -/
def Emitter.listenerCount (e : Emitter) (ev : String) : Nat :=
  (e.listeners.filter (fun p => p.1 = ev)).length

/-- `emitter.on(ev, listener)`: the listener (identified by `id`) is always
appended; if the per-event count then exceeds a non-zero `maxListeners`,
Node prints a leak warning (modelled by the `warned` flag) but keeps it. -/
def Emitter.on (e : Emitter) (ev : String) (id : Nat) : Emitter :=
  let e1 := { e with listeners := e.listeners ++ [(ev, id)] }
  if e1.maxListeners ≠ 0 ∧ e1.listenerCount ev > e1.maxListeners then
    { e1 with warned := true }
  else e1

/-- `emitter.emit(ev, ...)`: the listeners notified, in subscription order. -/
def Emitter.deliver (e : Emitter) (ev : String) : List Nat :=
  (e.listeners.filter (fun p => p.1 = ev)).map (fun p => p.2)

/-- The emitter as configured by the `RecorderApp` constructor:
`super(); this.setMaxListeners(0)`. -/
def recorderAppEmitter : Emitter := Emitter.new.setMax 0

/-- Register a whole list of subscriptions in order. -/
def subscribeAll (e : Emitter) (subs : List (String × Nat)) : Emitter :=
  subs.foldl (fun e p => e.on p.1 p.2) e

/-- On an emitter whose limit is 0 (unlimited), subscribing any list of
listeners appends all of them and never sets the warned flag. -/
theorem subscribeAll_unlimited (subs : List (String × Nat)) (e : Emitter)
    (h : e.maxListeners = 0) :
    (subscribeAll e subs).listeners = e.listeners ++ subs ∧
    (subscribeAll e subs).warned = e.warned ∧
    (subscribeAll e subs).maxListeners = 0 := by
  induction subs generalizing e with
  | nil => simp [subscribeAll, h]
  | cons p rest ih =>
    have hon : e.on p.1 p.2 =
        { e with listeners := e.listeners ++ [(p.1, p.2)] } := by
      simp [Emitter.on, h]
    have := ih { e with listeners := e.listeners ++ [(p.1, p.2)] } (by simp [h])
    simpa [subscribeAll, hon] using this

/-- Claim C10: the `RecorderApp` emitter has no listener bound: for every
list of subscriptions to `event`, `close` or any other name, every listener
is retained in order, no leak warning is ever raised, and each emitted
notification is delivered to every listener subscribed to its name. -/
theorem recorder_emitter_unlimited_listeners (subs : List (String × Nat)) :
    (subscribeAll recorderAppEmitter subs).listeners = subs ∧
    (subscribeAll recorderAppEmitter subs).warned = false ∧
    ∀ ev, (subscribeAll recorderAppEmitter subs).deliver ev =
      (subs.filter (fun p => p.1 = ev)).map (fun p => p.2) := by
  have h := subscribeAll_unlimited subs recorderAppEmitter rfl
  refine ⟨?_, ?_, ?_⟩
  · simpa [recorderAppEmitter, Emitter.new, Emitter.setMax] using h.1
  · simpa [recorderAppEmitter, Emitter.new, Emitter.setMax] using h.2.1
  · intro ev
    have h1 : (subscribeAll recorderAppEmitter subs).listeners = subs := by
      simpa [recorderAppEmitter, Emitter.new, Emitter.setMax] using h.1
    simp [Emitter.deliver, h1]

/-! ## Close lifecycle (claims C4 and C5)

`_init` registers `this._page.once('close', () => { this.emit('close');
this._page.context().close(...).catch(...); })`, and `RecorderApp.close()`
is `await this._page.context().close(...)`.

The page fires its `close` signal at most once, and the `once` wrapper runs
the handler at most once.  `BrowserContext.close` is not under `src/`;
modelled from the spec ("idempotent shutdown", "Closing tears down the
underlying Session"): closing an already-closed context performs no further
operation on the session, and closing an open context tears it down, which
closes its page and hence fires the page `close` signal.

State of one execution; `ctxCloseOps` counts the actual teardown operations
performed on the underlying session. -/

structure CloseState where
  pageCloseFired : Bool
  onceConsumed : Bool
  closeEvents : Nat
  ctxClosed : Bool
  ctxCloseOps : Nat
deriving DecidableEq, Repr

/-- Initial state: window open, nothing fired. -/
def initCloseState : CloseState := ⟨false, false, 0, false, 0⟩

/-- Body of the `once('close')` wrapper, run only when not yet consumed:
emit `close` on the RecorderApp emitter, then `context().close()` (modelled
from the spec as idempotent).  The page-close signal triggered by that inner
teardown reaches only the already-consumed `once` wrapper, so it is inlined
as a no-op beyond marking the signal fired. -/
def onceCloseHandler (s : CloseState) : CloseState :=
  let s1 := { s with onceConsumed := true, closeEvents := s.closeEvents + 1 }
  if s1.ctxClosed then s1
  else { s1 with ctxClosed := true, ctxCloseOps := s1.ctxCloseOps + 1,
                 pageCloseFired := true }

/-- The page delivers its `close` signal: at most once, to the `once`
wrapper. -/
def firePageClose (s : CloseState) : CloseState :=
  if s.pageCloseFired then s
  else
    let s1 := { s with pageCloseFired := true }
    if s1.onceConsumed then s1 else onceCloseHandler s1

/-- `context().close()` (modelled from the spec): a no-op when already
closed; otherwise tear down the session, which closes the page and fires
its `close` signal. -/
def contextClose (s : CloseState) : CloseState :=
  if s.ctxClosed then s
  else firePageClose
    { s with ctxClosed := true, ctxCloseOps := s.ctxCloseOps + 1 }

/-- External triggers: an explicit `RecorderApp.close()` call, or the user
closing the window. -/
inductive CloseTrigger
  | explicitClose
  | windowClose
deriving DecidableEq, Repr

/-- One step of the close lifecycle. -/
def closeStep (s : CloseState) (a : CloseTrigger) : CloseState :=
  match a with
  | .explicitClose => contextClose s
  | .windowClose => firePageClose s

/-- An execution: any interleaving of the two triggers, from the initial
state. -/
def runClose (acts : List CloseTrigger) : CloseState :=
  acts.foldl closeStep initCloseState

/-- The unique fully-closed state. -/
def closedState : CloseState := ⟨true, true, 1, true, 1⟩

/-- The closed state absorbs both triggers. -/
theorem closeStep_closedState (a : CloseTrigger) :
    closeStep closedState a = closedState := by
  cases a <;> rfl

/-- From the closed state, any further triggers leave the state unchanged. -/
theorem foldl_closeStep_closedState (acts : List CloseTrigger) :
    acts.foldl closeStep closedState = closedState := by
  induction acts with
  | nil => rfl
  | cons a rest ih => rw [List.foldl_cons, closeStep_closedState, ih]

/-- The first trigger, of either kind, takes the initial state to the closed
state. -/
theorem closeStep_initCloseState (a : CloseTrigger) :
    closeStep initCloseState a = closedState := by
  cases a <;> rfl

/-- Every non-empty execution ends in the closed state. -/
theorem runClose_eq_closedState (a : CloseTrigger) (rest : List CloseTrigger) :
    runClose (a :: rest) = closedState := by
  rw [runClose, List.foldl_cons, closeStep_initCloseState,
    foldl_closeStep_closedState]

/-- Claim C4: in every execution the `close` lifecycle event is emitted at
most once, and exactly once as soon as any close trigger (explicit close,
window close, or both racing) has occurred. -/
theorem close_event_emitted_once (acts : List CloseTrigger) :
    (runClose acts).closeEvents ≤ 1 ∧
    (acts ≠ [] → (runClose acts).closeEvents = 1) := by
  cases acts with
  | nil => exact ⟨by decide, fun h => absurd rfl h⟩
  | cons a rest =>
    rw [runClose_eq_closedState]
    exact ⟨by decide, fun _ => rfl⟩

/-- Witness for C4: both triggers racing produce exactly one `close`. -/
theorem close_event_emitted_once_witness :
    (runClose [CloseTrigger.windowClose, CloseTrigger.explicitClose]).closeEvents ≤ 1 ∧
    (runClose [CloseTrigger.windowClose, CloseTrigger.explicitClose]).closeEvents = 1 := by
  have h := close_event_emitted_once
    [CloseTrigger.windowClose, CloseTrigger.explicitClose]
  exact ⟨h.1, h.2 (by decide)⟩

/-- Claim C5: once the `close` event has fired, a further explicit
`close()` call leaves the whole state unchanged — in particular it performs
no new teardown operation on the underlying session. -/
theorem second_close_is_noop (acts : List CloseTrigger)
    (h : 1 ≤ (runClose acts).closeEvents) :
    runClose (acts ++ [CloseTrigger.explicitClose]) = runClose acts ∧
    (runClose (acts ++ [CloseTrigger.explicitClose])).ctxCloseOps =
      (runClose acts).ctxCloseOps := by
  cases acts with
  | nil => simp [runClose, initCloseState] at h
  | cons a rest =>
    have hc : runClose (a :: rest) = closedState := runClose_eq_closedState a rest
    have happ : runClose ((a :: rest) ++ [CloseTrigger.explicitClose]) =
        closedState := by
      rw [runClose, List.foldl_append]
      rw [runClose] at hc
      rw [hc, List.foldl_cons, closeStep_closedState]
      rfl
    rw [happ, hc]
    exact ⟨rfl, rfl⟩

/-- Witness for C5: after a window close, an explicit close changes
nothing. -/
theorem second_close_is_noop_witness :
    1 ≤ (runClose [CloseTrigger.windowClose]).closeEvents ∧
    runClose ([CloseTrigger.windowClose] ++ [CloseTrigger.explicitClose]) =
      runClose [CloseTrigger.windowClose] :=
  ⟨by decide, (second_close_is_noop [CloseTrigger.windowClose] (by decide)).1⟩

/-! ## Initialization and open (claims C7 and C8)

`_init` awaits, in order: `installAppIcon(page)`,
`page._setServerRequestInterceptor(handler)`,
`page.exposeBinding('dispatch', ...)`, registers `page.once('close', ...)`
(synchronous), and finally `mainFrame().goto('https://playwright/index.html')`.
Each awaited step may reject; a rejection stops the sequence.  We record the
operations issued on the page as a trace. -/

inductive PageOp
  | installAppIcon
  | setInterceptor
  | exposeBinding (name : String)
  | onceRegister (event : String)
  | goto (url : String)
deriving DecidableEq, Repr

/-- Outcomes of the four awaited steps of `_init`. -/
structure InitEnv where
  installAppIcon : Except String Unit
  setInterceptor : Except String Unit
  exposeBinding : Except String Unit
  goto : Except String Unit

/-- `RecorderApp._init`: the overall outcome together with the trace of
operations issued on the page, in issue order. -/
def runInit (env : InitEnv) : Except String Unit × List PageOp :=
  match env.installAppIcon with
  | .error e => (.error e, [.installAppIcon])
  | .ok _ =>
    match env.setInterceptor with
    | .error e => (.error e, [.installAppIcon, .setInterceptor])
    | .ok _ =>
      match env.exposeBinding with
      | .error e =>
          (.error e, [.installAppIcon, .setInterceptor,
            .exposeBinding "dispatch"])
      | .ok _ =>
        match env.goto with
        | .error e =>
            (.error e, [.installAppIcon, .setInterceptor,
              .exposeBinding "dispatch", .onceRegister "close",
              .goto recorderUrl])
        | .ok _ =>
            (.ok (), [.installAppIcon, .setInterceptor,
              .exposeBinding "dispatch", .onceRegister "close",
              .goto recorderUrl])

/-- Claim C8: in every execution of `_init` in which the initial navigation
to the virtual entry address is issued, the request interceptor and the
`dispatch` binding were each installed exactly once, and both installations
precede the navigation in the trace. -/
theorem init_installs_once_before_navigation (env : InitEnv)
    (h : PageOp.goto recorderUrl ∈ (runInit env).2) :
    (runInit env).2.count PageOp.setInterceptor = 1 ∧
    (runInit env).2.count (PageOp.exposeBinding "dispatch") = 1 ∧
    (runInit env).2.count (PageOp.goto recorderUrl) = 1 ∧
    (runInit env).2.indexOf PageOp.setInterceptor <
      (runInit env).2.indexOf (PageOp.goto recorderUrl) ∧
    (runInit env).2.indexOf (PageOp.exposeBinding "dispatch") <
      (runInit env).2.indexOf (PageOp.goto recorderUrl) := by
  rcases h1 : env.installAppIcon with e | u <;>
    rcases h2 : env.setInterceptor with e2 | u2 <;>
      rcases h3 : env.exposeBinding with e3 | u3 <;>
        rcases h4 : env.goto with e4 | u4 <;>
          simp [runInit, h1, h2, h3, h4, recorderUrl] at h ⊢

/-- Witness for C8: the all-successful initialization. -/
theorem init_installs_once_before_navigation_witness :
    (runInit ⟨Except.ok (), Except.ok (), Except.ok (), Except.ok ()⟩).2.count
        PageOp.setInterceptor = 1 ∧
    (runInit ⟨Except.ok (), Except.ok (), Except.ok (), Except.ok ()⟩).2.indexOf
        PageOp.setInterceptor <
      (runInit ⟨Except.ok (), Except.ok (), Except.ok (),
        Except.ok ()⟩).2.indexOf (PageOp.goto recorderUrl) := by
  have h := init_installs_once_before_navigation
    ⟨Except.ok (), Except.ok (), Except.ok (), Except.ok ()⟩ (by decide)
  exact ⟨h.1, h.2.2.2.1⟩

/-- Outcomes of the awaited steps of `RecorderApp.open`:
`launchPersistentContext` and the `ProgressController.run` around
`_loadDefaultContextAsIs`, followed by `_init` on the first page. -/
structure OpenEnv where
  launch : Except String Unit
  loadDefaultContext : Except String Unit
  initEnv : InitEnv

/-- `RecorderApp.open(inspectedContext)`: launch the persistent visual
session, load its default context, then run `_init`; there is no try/catch,
so the first rejection propagates to the caller.  On success the result is
the trace of page operations of the initialized app. -/
def openApp (env : OpenEnv) : Except String (List PageOp) :=
  match env.launch with
  | .error e => .error e
  | .ok _ =>
    match env.loadDefaultContext with
    | .error e => .error e
    | .ok _ =>
      match runInit env.initEnv with
      | (.error e, _) => .error e
      | (.ok _, trace) => .ok trace

/-- Claim C7: a failure launching the persistent visual session, or a
failure while loading its default browsing context, makes `open` reject
with that very failure — it propagates uncaught, with no recovery or
retry inside Bootstrap. -/
theorem open_propagates_bootstrap_failure (env : OpenEnv) (e : String) :
    (env.launch = Except.error e → openApp env = Except.error e) ∧
    (env.launch = Except.ok () → env.loadDefaultContext = Except.error e →
      openApp env = Except.error e) := by
  constructor
  · intro h
    simp [openApp, h]
  · intro h1 h2
    simp [openApp, h1, h2]

/-- Witness for C7: a failing launch and a failing default-context load each
reject `open` with the same error. -/
theorem open_propagates_bootstrap_failure_witness :
    openApp ⟨Except.error "launch failed", Except.ok (),
        ⟨Except.ok (), Except.ok (), Except.ok (), Except.ok ()⟩⟩ =
      Except.error "launch failed" ∧
    openApp ⟨Except.ok (), Except.error "load failed",
        ⟨Except.ok (), Except.ok (), Except.ok (), Except.ok ()⟩⟩ =
      Except.error "load failed" := by
  constructor
  · exact (open_propagates_bootstrap_failure
      ⟨Except.error "launch failed", Except.ok (),
        ⟨Except.ok (), Except.ok (), Except.ok (), Except.ok ()⟩⟩
      "launch failed").1 rfl
  · exact (open_propagates_bootstrap_failure
      ⟨Except.ok (), Except.error "load failed",
        ⟨Except.ok (), Except.ok (), Except.ok (), Except.ok ()⟩⟩
      "load failed").2 rfl rfl
